import Mathlib

/-!
Verification of the API Resolution & Normalization Core of
`telegram_anime_bot.py` (repository Dinobonecrash1/Animetest).

The Python source is shallowly embedded below.  Parsed JSON payloads are
modelled by the inductive `Json` together with Python-truthiness
(`truthy`) and `dict.get` (`Json.get?` / `Option.getD`).  One upstream
HTTP exchange is modelled by `Upstream`: either the request raised
(network error / timeout, `netErr`) or it delivered a status code and a
body (`none` for a body whose JSON parse raised).  The mutable fields of
`WorkingAnimeAPI` / `WorkingTelegramBot` and the module-level
`shutdown_flag` are gathered in `BotState`; the counters `opens`,
`closes` and `netCalls` record how many aiohttp client sessions were
created, how many were actually closed, and how many HTTP requests were
issued, so that "no network call" and "no double close" are stateable.
Every Python `try/except` that returns a default is translated as the
corresponding total function returning that default.
-/

namespace AnimeBot

/-- Minimal model of a parsed JSON value (`await response.json()`).
Numbers are modelled as integers: no claim depends on fractional
values. -/
inductive Json where
  | null
  | bool (b : Bool)
  | num (n : Int)
  | str (s : String)
  | arr (elems : List Json)
  | obj (fields : List (String × Json))

/-- Python `d.get(k)` on a parsed JSON value: key lookup on an object,
`None` otherwise.  (On a non-object Python raises `AttributeError`; in
the `WorkingAnimeAPI` probe and fetch methods the surrounding
`try/except` yields the same result as the `none` branch, so the
collapse is behaviour-preserving there.  The `search_command` result
loop, where a raise instead aborts the whole command, is modelled
separately with the raise-propagating `pyGet`.) -/
def Json.get? : Json → String → Option Json
  | .obj fs, k => fs.lookup k
  | _, _ => none

/-- Python truthiness of a parsed JSON value (`bool(x)`, `if x:`,
`x or y`): `None`, `False`, `0`, `""`, `[]` and `{}` are falsy. -/
def truthy : Json → Bool
  | .null => false
  | .bool b => b
  | .num n => n != 0
  | .str s => s != ""
  | .arr xs => !xs.isEmpty
  | .obj fs => !fs.isEmpty

/-- Python `a or b` restricted to JSON values: `a` if truthy, else `b`. -/
def pyOr (a b : Json) : Json := if truthy a then a else b

/-- Python slicing `x[:8]`: defined on lists and strings, raises
(`TypeError`) on every other value — the raise is modelled as `none`. -/
def pySlice8 : Json → Option Json
  | .arr xs => some (.arr (xs.take 8))
  | .str s => some (.str (s.take 8))
  | _ => none

/-- One backend entry of `WorkingAnimeAPI.__init__`'s `self.apis` list
(lines 45-74).  The presentation-only keys (`status`, `features`) and
the endpoint template strings are omitted: no claim depends on them. -/
structure ApiDescriptor where
  name : String
  base_url : String
  type : String
deriving DecidableEq, Repr

/-- `self.apis[0]` (lines 46-52). -/
def anilistApi : ApiDescriptor :=
  { name := "AniList GraphQL", base_url := "https://graphql.anilist.co",
    type := "graphql" }

/-- `self.apis[1]` (lines 53-61). -/
def jikanApi : ApiDescriptor :=
  { name := "Jikan MyAnimeList API", base_url := "https://api.jikan.moe/v4",
    type := "rest" }

/-- `self.apis[2]` (lines 62-73). -/
def falconApi : ApiDescriptor :=
  { name := "Falcon71181 Anime API",
    base_url := "https://api-anime-rouge.vercel.app", type := "streaming" }

/-- The Registry: `self.apis`, in source order (lines 45-74). -/
def apis : List ApiDescriptor := [anilistApi, jikanApi, falconApi]

/-- The outcome of one upstream HTTP exchange.  `netErr` is a request
that raised (connection error or timeout); `resp status body` is a
delivered response, with `body = none` when `response.json()` raised
(malformed body). -/
inductive Upstream where
  | netErr
  | resp (status : Nat) (body : Option Json)

/-- The guard every operation applies to a response: the parsed body is
available exactly when the exchange delivered status 200 and the body
parsed (`if response.status == 200: data = await response.json()`);
every other outcome falls through to the operation's failure branch. -/
def http_json (u : Upstream) : Option Json :=
  match u with
  | .netErr => none
  | .resp status body => if status = 200 then body else none

/-- Failure classification of one exchange, exactly the kinds the code
absorbs: network error, timeout, non-200 status, or malformed JSON. -/
def Upstream.failed (u : Upstream) : Bool := (http_json u).isNone

/-- State of the one pooled aiohttp client owned by `WorkingAnimeAPI`:
`self.session` is `None` (`unopened`), a live client (`opened`), or a
closed client (`closed`). -/
inductive SessionState where
  | unopened
  | opened
  | closed
deriving DecidableEq, Repr

/-- The mutable state of the program relevant to the core:
`self.session` (as `session`), `self.working_api`, the module-level
`shutdown_flag`, `self.is_running`, plus three instrumentation counters
(`opens`: clients constructed, `closes`: clients actually closed,
`netCalls`: HTTP requests issued). -/
structure BotState where
  session : SessionState
  working_api : Option ApiDescriptor
  opens : Nat
  closes : Nat
  netCalls : Nat
  shutdown_flag : Bool
  is_running : Bool
deriving DecidableEq, Repr

/-- The state right after `WorkingTelegramBot.__init__` /
`WorkingAnimeAPI.__init__`: no session, no bound backend. -/
def initState : BotState :=
  { session := .unopened, working_api := none, opens := 0, closes := 0,
    netCalls := 0, shutdown_flag := false, is_running := false }

/-- `WorkingAnimeAPI.init_session` (lines 78-92): if `self.session` is
`None` or closed, construct a fresh `aiohttp.ClientSession`; a live
session is left alone. -/
def init_session (s : BotState) : BotState :=
  match s.session with
  | .opened => s
  | _ => { s with session := .opened, opens := s.opens + 1 }

/-- `WorkingAnimeAPI.close_session` (lines 94-101): close the client if
one exists and is not already closed, otherwise do nothing.  The inner
`try/except` only logs, so the no-raise contract is the totality of
this function. -/
def close_session (s : BotState) : BotState :=
  match s.session with
  | .opened => { s with session := .closed, closes := s.closes + 1 }
  | _ => s

/-- The state effect shared by every probe and search helper:
`await self.init_session()` followed by issuing one HTTP request. -/
def requestThrough (s : BotState) : BotState :=
  let s1 := init_session s
  { s1 with netCalls := s1.netCalls + 1 }

/-- `WorkingAnimeAPI.test_anilist_api` (lines 103-131): POST the canary
GraphQL query `Media(id: 1)`; succeed iff status 200 and
`bool(data.get('data', {}).get('Media'))`. -/
def test_anilist_api (u : Upstream) : Bool :=
  match http_json u with
  | some data => truthy ((((data.get? "data").getD (.obj [])).get? "Media").getD .null)
  | none => false

/-- `WorkingAnimeAPI.test_jikan_api` (lines 133-144): GET `/anime/1`;
succeed iff status 200 and `bool(data.get('data'))`. -/
def test_jikan_api (u : Upstream) : Bool :=
  match http_json u with
  | some data => truthy ((data.get? "data").getD .null)
  | none => false

/-- `WorkingAnimeAPI.test_falcon_api` (lines 146-159): GET the canary
search `keyword=naruto`; succeed iff status 200 and
`bool(data.get('animes', []))`. -/
def test_falcon_api (u : Upstream) : Bool :=
  match http_json u with
  | some data => truthy ((data.get? "animes").getD (.arr []))
  | none => false

/-- The three canary responses one resolution pass can consult, one per
backend test. -/
structure ProbeEnv where
  falconResp : Upstream
  anilistResp : Upstream
  jikanResp : Upstream

/-- `WorkingAnimeAPI.find_working_api` (lines 161-187).  If
`self.working_api` is set it is returned at once.  Otherwise the tests
run in the hard-coded preference order `apis[2], apis[0], apis[1]`
(Falcon, AniList, Jikan — lines 169-173), the first success is bound,
and if all three fail the fallback `self.apis[0]` (AniList) is bound
(lines 184-187).  Each executed test performs `init_session` plus one
request (`requestThrough`). -/
def find_working_api (s : BotState) (env : ProbeEnv) : ApiDescriptor × BotState :=
  match s.working_api with
  | some api => (api, s)
  | none =>
    let s1 := requestThrough s
    if test_falcon_api env.falconResp then
      (falconApi, { s1 with working_api := some falconApi })
    else
      let s2 := requestThrough s1
      if test_anilist_api env.anilistResp then
        (anilistApi, { s2 with working_api := some anilistApi })
      else
        let s3 := requestThrough s2
        if test_jikan_api env.jikanResp then
          (jikanApi, { s3 with working_api := some jikanApi })
        else
          (anilistApi, { s3 with working_api := some anilistApi })

/-- The environment one fetch operation runs in: the canary responses a
possible resolution pass would see, and the response to the operation's
own request. -/
structure FetchEnv where
  probeEnv : ProbeEnv
  fetchResp : Upstream

/-- Extraction path of `search_anime_anilist` / the AniList recent
branch: `data.get('data', {}).get('Page', {}).get('media', [])`. -/
def anilist_media (data : Json) : Json :=
  (((((data.get? "data").getD (.obj [])).get? "Page").getD (.obj [])).get? "media").getD (.arr [])

/-- `WorkingAnimeAPI.search_anime_anilist` (lines 189-233): POST the
search query; on a delivered, parsed 200 response return the media
list, on every failure return `[]`. -/
def search_anime_anilist (s : BotState) (u : Upstream) : Json × BotState :=
  let s1 := requestThrough s
  match http_json u with
  | some data => (anilist_media data, s1)
  | none => (.arr [], s1)

/-- `WorkingAnimeAPI.search_anime_jikan` (lines 235-248): GET the search
URL; return `data.get('data', [])` on success, `[]` on failure. -/
def search_anime_jikan (s : BotState) (u : Upstream) : Json × BotState :=
  let s1 := requestThrough s
  match http_json u with
  | some data => ((data.get? "data").getD (.arr []), s1)
  | none => (.arr [], s1)

/-- `WorkingAnimeAPI.search_anime_falcon` (lines 250-263): GET the
search URL; return `data.get('animes', [])` on success, `[]` on
failure. -/
def search_anime_falcon (s : BotState) (u : Upstream) : Json × BotState :=
  let s1 := requestThrough s
  match http_json u with
  | some data => ((data.get? "animes").getD (.arr []), s1)
  | none => (.arr [], s1)

/-- `WorkingAnimeAPI.search_anime` (lines 265-282): resolve, then
dispatch on the bound backend's `name`; the final `else` and the outer
`except` both return `[]`.  (The `if not api` guard of line 269 is
unreachable: `find_working_api` always returns a descriptor.)  The
query string only shapes the request URL, which carries no provable
content here. -/
def search_anime (s : BotState) (env : FetchEnv) (_query : String) : Json × BotState :=
  let r := find_working_api s env.probeEnv
  if r.1.name = "AniList GraphQL" then search_anime_anilist r.2 env.fetchResp
  else if r.1.name = "Jikan MyAnimeList API" then search_anime_jikan r.2 env.fetchResp
  else if r.1.name = "Falcon71181 Anime API" then search_anime_falcon r.2 env.fetchResp
  else (.arr [], r.2)

/-- AniList branch of `get_recent_anime` (lines 293-322): one POST
(the session was already initialised by line 291), returning the
trending media list on success, `[]` otherwise. -/
def recent_anilist (s : BotState) (u : Upstream) : Json × BotState :=
  let s2 := { s with netCalls := s.netCalls + 1 }
  match http_json u with
  | some data => (anilist_media data, s2)
  | none => (.arr [], s2)

/-- Jikan branch of `get_recent_anime` (lines 324-330): GET
`/seasons/now?limit=8`, returning `data.get('data', [])` — the list is
NOT truncated by the code. -/
def recent_jikan (s : BotState) (u : Upstream) : Json × BotState :=
  let s2 := { s with netCalls := s.netCalls + 1 }
  match http_json u with
  | some data => ((data.get? "data").getD (.arr []), s2)
  | none => (.arr [], s2)

/-- Falcon branch of `get_recent_anime` (lines 332-338): GET the
recent-episodes URL and return `data.get('animes', [])[:8]` — the only
branch that truncates; a slice on a non-sliceable value raises and the
outer `except` yields `[]`. -/
def recent_falcon (s : BotState) (u : Upstream) : Json × BotState :=
  let s2 := { s with netCalls := s.netCalls + 1 }
  match http_json u with
  | some data =>
    match pySlice8 ((data.get? "animes").getD (.arr [])) with
    | some v => (v, s2)
    | none => (.arr [], s2)
  | none => (.arr [], s2)

/-- `WorkingAnimeAPI.get_recent_anime` (lines 284-343): resolve, call
`init_session` (line 291), dispatch on the bound backend's name; every
failure path and the final fall-through return `[]`. -/
def get_recent_anime (s : BotState) (env : FetchEnv) : Json × BotState :=
  let r := find_working_api s env.probeEnv
  let s1 := init_session r.2
  if r.1.name = "AniList GraphQL" then recent_anilist s1 env.fetchResp
  else if r.1.name = "Jikan MyAnimeList API" then recent_jikan s1 env.fetchResp
  else if r.1.name = "Falcon71181 Anime API" then recent_falcon s1 env.fetchResp
  else (.arr [], s1)

/-- `WorkingTelegramBot.shutdown_bot` (lines 726-751) restricted to the
state the core owns: set `shutdown_flag`, clear `is_running`, close the
API session.  The `telegram.ext.Application` teardown between those
steps belongs to the external collaborator and touches none of this
state. -/
def shutdown_bot (s : BotState) : BotState :=
  close_session { s with shutdown_flag := true, is_running := false }

/-- AniList title extraction used by `search_command` (lines 483-485)
and `recent_command` (lines 574-576):
`anime.get('title', {}).get('romaji') or anime.get('title', {}).get('english') or 'Unknown Title'`. -/
def anilist_title (anime : Json) : Json :=
  pyOr (pyOr ((((anime.get? "title").getD (.obj [])).get? "romaji").getD .null)
             ((((anime.get? "title").getD (.obj [])).get? "english").getD .null))
       (.str "Unknown Title")

/-- Per-backend title extraction of `search_command`'s result loop
(lines 482-530).  The final branch is unreachable: `working_api` only
ever holds one of the three registry entries. -/
def search_title (apiName : String) (anime : Json) : Json :=
  if apiName = "AniList GraphQL" then anilist_title anime
  else if apiName = "Jikan MyAnimeList API" then (anime.get? "title").getD (.str "Unknown Title")
  else if apiName = "Falcon71181 Anime API" then (anime.get? "name").getD (.str "Unknown Title")
  else .null

/-- Per-backend identifier extraction of `search_command`'s result loop:
`anime.get('id', '')` for AniList and Falcon, `anime.get('mal_id', '')`
for Jikan. -/
def search_anime_id (apiName : String) (anime : Json) : Json :=
  if apiName = "AniList GraphQL" then (anime.get? "id").getD (.str "")
  else if apiName = "Jikan MyAnimeList API" then (anime.get? "mal_id").getD (.str "")
  else if apiName = "Falcon71181 Anime API" then (anime.get? "id").getD (.str "")
  else .null

/-- Python `obj.get(key, default)` as `search_command`'s result loop
uses it: on a non-dict value the attribute lookup raises
`AttributeError` (`none`), which aborts the whole command. -/
def pyGet (j : Json) (k : String) (dflt : Json) : Option Json :=
  match j with
  | .obj fs => some ((fs.lookup k).getD dflt)
  | _ => none

/-- Python `title[:15]` in the button label (line 533): slicing is
defined on strings and lists and raises `TypeError` (`none`) on every
other value. -/
def pySlice15 : Json → Option Json
  | .str s => some (.str (s.take 15))
  | .arr xs => some (.arr (xs.take 15))
  | _ => none

/-- Python `x > 0` (the `sub_count > 0` / `dub_count > 0` checks of
lines 526-528): defined on numbers and booleans, raising `TypeError`
(`none`) on any other value. -/
def pyGtZero : Json → Option Bool
  | .num n => some (decide (0 < n))
  | .bool b => some b
  | _ => none

/-- The field extractions of `search_command`'s AniList branch
(lines 483-495), with every raise path propagated as `none`: a
non-dict record, a non-dict `title` or `startDate` value.  The
display-only fields are extracted (their extraction can raise) and
discarded; the result is the `(title, anime_id)` pair the branch
leaves bound.  (The `or` chain short-circuits in Python, but its
second `anime.get('title', {})` repeats the first, so sequential
evaluation raises in exactly the same cases.) -/
def anilist_search_fields (anime : Json) : Option (Json × Json) := do
  let t1 ← pyGet anime "title" (.obj [])
  let r ← pyGet t1 "romaji" .null
  let t2 ← pyGet anime "title" (.obj [])
  let e ← pyGet t2 "english" .null
  let _ ← pyGet anime "episodes" .null
  let sd ← pyGet anime "startDate" (.obj [])
  let _ ← pyGet sd "year" .null
  let _ ← pyGet anime "averageScore" .null
  let animeId ← pyGet anime "id" (.str "")
  pure (pyOr (pyOr r e) (.str "Unknown Title"), animeId)

/-- The field extractions of the Jikan branch (lines 498-508): every
field is read off the record directly, so the only raise path is a
non-dict record. -/
def jikan_search_fields (anime : Json) : Option (Json × Json) := do
  let title ← pyGet anime "title" (.str "Unknown Title")
  let _ ← pyGet anime "episodes" .null
  let _ ← pyGet anime "year" .null
  let _ ← pyGet anime "score" .null
  let animeId ← pyGet anime "mal_id" (.str "")
  pure (title, animeId)

/-- The field extractions of the Falcon branch (lines 511-530): a
dict-valued `episodes` has `eps`, `sub` and `dub` read and the two
counts compared with 0 — a comparison that raises on non-numeric
values; any other `episodes` value takes the fallback of lines 517-520
without raising. -/
def falcon_search_fields (anime : Json) : Option (Json × Json) := do
  let title ← pyGet anime "name" (.str "Unknown Title")
  let episodes ← pyGet anime "episodes" (.obj [])
  match episodes with
  | .obj _ => do
    let _ ← pyGet episodes "eps" (.str "Unknown")
    let sub ← pyGet episodes "sub" (.num 0)
    let dub ← pyGet episodes "dub" (.num 0)
    let animeId ← pyGet anime "id" (.str "")
    let _ ← pyGtZero sub
    let _ ← pyGtZero dub
    pure (title, animeId)
  | _ => do
    let animeId ← pyGet anime "id" (.str "")
    pure (title, animeId)

/-- One iteration of `search_command`'s result loop: run the bound
branch's field extraction (`none` = the iteration raised), then, when
the identifier is truthy (`if anime_id:`, line 532), build the button,
slicing the title for its label (line 533) — a raise on a
non-sliceable title.  `some none` is a completed iteration that
appends no button.  The final branch (no matching backend name) is
unreachable — `working_api` only holds Registry entries — and is
modelled as the `NameError` it would raise. -/
def search_step (apiName : String) (anime : Json) : Option (Option (Json × Json)) :=
  match (if apiName = "AniList GraphQL" then anilist_search_fields anime
    else if apiName = "Jikan MyAnimeList API" then jikan_search_fields anime
    else if apiName = "Falcon71181 Anime API" then falcon_search_fields anime
    else none) with
  | none => none
  | some (title, animeId) =>
    if truthy animeId then
      match pySlice15 title with
      | none => none
      | some _ => some (some (title, animeId))
    else some none

/-- The result loop itself: process records in order; one raised
iteration aborts the whole command (the `except` at line 540 replaces
the reply and no keyboard is delivered — `none`); otherwise collect
one `(title, id)` entry per identifier-bearing record, in order. -/
def search_command_keyboard_go (apiName : String) :
    List Json → Option (List (Json × Json))
  | [] => some []
  | anime :: rest =>
    match search_step apiName anime with
    | none => none
    | some entry =>
      match search_command_keyboard_go apiName rest with
      | none => none
      | some tail => some (entry.toList ++ tail)

/-- The selectable entries `search_command` delivers (lines 480-540):
the loop runs over `results[:6]`; `none` when some rendered record
aborts the command, otherwise the ordered entries of the
identifier-bearing records among the first six. -/
def search_command_keyboard (apiName : String) (results : List Json) :
    Option (List (Json × Json)) :=
  search_command_keyboard_go apiName (results.take 6)

/-- AniList title extraction site in `recent_command` (lines 573-579);
textually identical to the `search_command` one. -/
def recent_title (apiName : String) (anime : Json) : Json :=
  if apiName = "AniList GraphQL" then anilist_title anime
  else if apiName = "Jikan MyAnimeList API" then (anime.get? "title").getD (.str "Unknown Title")
  else if apiName = "Falcon71181 Anime API" then (anime.get? "name").getD (.str "Unknown Title")
  else .null

/-- The spec's side condition "the response status indicates success",
read as the HTTP success class 2xx.  This is a spec-side definition,
used only to state claim C4; the code itself compares with 200. -/
def specSuccessStatus (st : Nat) : Bool := 200 ≤ st && st < 300

/-- Spec-side health view of one resolution environment, used to state
the amended claim C2: whether the canary test of a given registry entry
succeeds in that environment. -/
def probeHealthy (env : ProbeEnv) (a : ApiDescriptor) : Bool :=
  if a = falconApi then test_falcon_api env.falconResp
  else if a = anilistApi then test_anilist_api env.anilistResp
  else if a = jikanApi then test_jikan_api env.jikanResp
  else false

/-- The hard-coded trial order of `find_working_api` (lines 169-173):
`apis[2], apis[0], apis[1]` — not the Registry order `apis`. -/
def probe_preference : List ApiDescriptor := [falconApi, anilistApi, jikanApi]

/-! ### Helper lemmas about the session and resolution state -/

lemma init_session_session (s : BotState) : (init_session s).session = .opened := by
  unfold init_session
  split
  · assumption
  · rfl

lemma init_session_working (s : BotState) :
    (init_session s).working_api = s.working_api := by
  unfold init_session
  split <;> rfl

lemma init_session_of_opened {s : BotState} (h : s.session = .opened) :
    init_session s = s := by
  unfold init_session
  split
  · rfl
  · simp_all

lemma init_session_opens_of_not_opened {s : BotState} (h : s.session ≠ .opened) :
    (init_session s).opens = s.opens + 1 := by
  unfold init_session
  split
  · simp_all
  · rfl

lemma requestThrough_session (s : BotState) :
    (requestThrough s).session = .opened := by
  simp [requestThrough, init_session_session]

lemma requestThrough_working (s : BotState) :
    (requestThrough s).working_api = s.working_api := by
  simp [requestThrough, init_session_working]

lemma requestThrough_opens (s : BotState) :
    (requestThrough s).opens = (init_session s).opens := by
  simp [requestThrough]

lemma requestThrough_opens_of_opened {s : BotState} (h : s.session = .opened) :
    (requestThrough s).opens = s.opens := by
  simp [requestThrough_opens, init_session_of_opened h]

lemma requestThrough_opens_of_not_opened {s : BotState} (h : s.session ≠ .opened) :
    (requestThrough s).opens = s.opens + 1 := by
  simp [requestThrough_opens, init_session_opens_of_not_opened h]

lemma find_bound (s : BotState) (env : ProbeEnv) (a : ApiDescriptor)
    (h : s.working_api = some a) : find_working_api s env = (a, s) := by
  unfold find_working_api
  rw [h]

/-- Whatever `find_working_api` returns is also what it has bound. -/
lemma find_binds (s : BotState) (env : ProbeEnv) :
    (find_working_api s env).2.working_api = some (find_working_api s env).1 := by
  unfold find_working_api
  cases h : s.working_api with
  | some api => simpa using h
  | none =>
    by_cases hf : test_falcon_api env.falconResp
    · simp [hf]
    · by_cases ha : test_anilist_api env.anilistResp
      · simp [hf, ha]
      · by_cases hj : test_jikan_api env.jikanResp <;> simp [hf, ha, hj]

lemma find_unbound_state (s : BotState) (env : ProbeEnv)
    (h : s.working_api = none) :
    (find_working_api s env).2.session = .opened ∧
    (find_working_api s env).2.opens =
      (if s.session = .opened then s.opens else s.opens + 1) := by
  unfold find_working_api
  rw [h]
  have h1 : (requestThrough s).session = .opened := requestThrough_session s
  have h2 : (requestThrough (requestThrough s)).session = .opened :=
    requestThrough_session _
  have h3 : (requestThrough (requestThrough s)).opens = (requestThrough s).opens :=
    requestThrough_opens_of_opened h1
  have h4 : (requestThrough (requestThrough (requestThrough s))).opens =
      (requestThrough s).opens := by
    rw [requestThrough_opens_of_opened h2, h3]
  have h5 : (requestThrough (requestThrough (requestThrough s))).session = .opened :=
    requestThrough_session _
  have hop : (requestThrough s).opens =
      (if s.session = .opened then s.opens else s.opens + 1) := by
    by_cases hs : s.session = .opened
    · simp [hs, requestThrough_opens_of_opened hs]
    · simp [hs, requestThrough_opens_of_not_opened hs]
  by_cases hf : test_falcon_api env.falconResp
  · simp [hf, h1, hop]
  · by_cases ha : test_anilist_api env.anilistResp
    · simp [hf, ha, h2, h3, hop]
    · by_cases hj : test_jikan_api env.jikanResp <;> simp [hf, ha, hj, h4, h5, hop]

lemma search_anilist_state (s : BotState) (u : Upstream) :
    (search_anime_anilist s u).2 = requestThrough s := by
  unfold search_anime_anilist
  cases http_json u <;> rfl

lemma search_jikan_state (s : BotState) (u : Upstream) :
    (search_anime_jikan s u).2 = requestThrough s := by
  unfold search_anime_jikan
  cases http_json u <;> rfl

lemma search_falcon_state (s : BotState) (u : Upstream) :
    (search_anime_falcon s u).2 = requestThrough s := by
  unfold search_anime_falcon
  cases http_json u <;> rfl

lemma search_anilist_failed (s : BotState) (u : Upstream)
    (h : http_json u = none) : (search_anime_anilist s u).1 = .arr [] := by
  simp [search_anime_anilist, h]

lemma search_jikan_failed (s : BotState) (u : Upstream)
    (h : http_json u = none) : (search_anime_jikan s u).1 = .arr [] := by
  simp [search_anime_jikan, h]

lemma search_falcon_failed (s : BotState) (u : Upstream)
    (h : http_json u = none) : (search_anime_falcon s u).1 = .arr [] := by
  simp [search_anime_falcon, h]

lemma recent_anilist_state (s : BotState) (u : Upstream) :
    (recent_anilist s u).2 = { s with netCalls := s.netCalls + 1 } := by
  unfold recent_anilist
  cases http_json u <;> rfl

lemma recent_jikan_state (s : BotState) (u : Upstream) :
    (recent_jikan s u).2 = { s with netCalls := s.netCalls + 1 } := by
  unfold recent_jikan
  cases http_json u <;> rfl

lemma recent_falcon_state (s : BotState) (u : Upstream) :
    (recent_falcon s u).2 = { s with netCalls := s.netCalls + 1 } := by
  unfold recent_falcon
  cases h : http_json u
  · rfl
  · simp only [recent_falcon]
    cases pySlice8 ((Option.getD (Json.get? _ "animes") (.arr []))) <;> simp [h]

lemma recent_anilist_failed (s : BotState) (u : Upstream)
    (h : http_json u = none) : (recent_anilist s u).1 = .arr [] := by
  simp [recent_anilist, h]

lemma recent_jikan_failed (s : BotState) (u : Upstream)
    (h : http_json u = none) : (recent_jikan s u).1 = .arr [] := by
  simp [recent_jikan, h]

lemma recent_falcon_failed (s : BotState) (u : Upstream)
    (h : http_json u = none) : (recent_falcon s u).1 = .arr [] := by
  simp [recent_falcon, h]

/-- Both fetch operations return the empty list whenever their own
request fails (network error, timeout, non-200 status or malformed
body), for every state. -/
lemma search_failed (s : BotState) (env : FetchEnv) (q : String)
    (hn : http_json env.fetchResp = none) :
    (search_anime s env q).1 = .arr [] := by
  unfold search_anime
  dsimp only
  split
  · exact search_anilist_failed _ _ hn
  · split
    · exact search_jikan_failed _ _ hn
    · split
      · exact search_falcon_failed _ _ hn
      · rfl

lemma recent_failed (s : BotState) (env : FetchEnv)
    (hn : http_json env.fetchResp = none) :
    (get_recent_anime s env).1 = .arr [] := by
  unfold get_recent_anime
  dsimp only
  split
  · exact recent_anilist_failed _ _ hn
  · split
    · exact recent_jikan_failed _ _ hn
    · split
      · exact recent_falcon_failed _ _ hn
      · rfl

/-- Once a backend is bound, neither fetch operation changes it. -/
lemma search_preserves_bound (s : BotState) (env : FetchEnv) (q : String)
    (a : ApiDescriptor) (h : s.working_api = some a) :
    (search_anime s env q).2.working_api = some a := by
  unfold search_anime
  rw [find_bound s env.probeEnv a h]
  dsimp only
  split
  · rw [search_anilist_state, requestThrough_working]; exact h
  · split
    · rw [search_jikan_state, requestThrough_working]; exact h
    · split
      · rw [search_falcon_state, requestThrough_working]; exact h
      · exact h

lemma recent_preserves_bound (s : BotState) (env : FetchEnv)
    (a : ApiDescriptor) (h : s.working_api = some a) :
    (get_recent_anime s env).2.working_api = some a := by
  unfold get_recent_anime
  rw [find_bound s env.probeEnv a h]
  have hi : (init_session s).working_api = some a := by
    rw [init_session_working]; exact h
  dsimp only
  split
  · rw [recent_anilist_state]; exact hi
  · split
    · rw [recent_jikan_state]; exact hi
    · split
      · rw [recent_falcon_state]; exact hi
      · exact hi

/-! ### Concrete fixtures used by counterexamples and witnesses -/

/-- A delivered, well-formed Falcon search body with one result. -/
def falconOkBody : Json :=
  .obj [("animes", .arr [.obj [("id", .str "one-piece-100"), ("name", .str "One Piece")]])]

/-- A healthy Falcon canary exchange. -/
def falconOk : Upstream := .resp 200 (some falconOkBody)

/-- A delivered, well-formed AniList canary body (`Media` present). -/
def anilistOkBody : Json :=
  .obj [("data", .obj [("Media", .obj [("id", .num 1)])])]

/-- A healthy AniList canary exchange. -/
def anilistOk : Upstream := .resp 200 (some anilistOkBody)

/-- An environment where every canary request raises. -/
def allFailEnv : ProbeEnv :=
  { falconResp := .netErr, anilistResp := .netErr, jikanResp := .netErr }

/-- An environment where both the Falcon and the AniList backends are
healthy (the Jikan canary is never reached in it). -/
def bothHealthyEnv : ProbeEnv :=
  { falconResp := falconOk, anilistResp := anilistOk, jikanResp := .netErr }

/-! ### Claim theorems -/

/-- C1, counterexample.  The claim says that when every descriptor
fails its health probe, `resolve()` returns none.  In the code
(lines 184-187) `find_working_api` instead falls back to
`self.apis[0]` and binds it: with every canary raising, it returns the
AniList descriptor — a bound backend, not none. -/
theorem C1_counterexample :
    test_falcon_api allFailEnv.falconResp = false ∧
    test_anilist_api allFailEnv.anilistResp = false ∧
    test_jikan_api allFailEnv.jikanResp = false ∧
    (find_working_api initState allFailEnv).1 = anilistApi ∧
    (find_working_api initState allFailEnv).2.working_api = some anilistApi :=
  ⟨rfl, rfl, rfl, rfl, rfl⟩

/-- C1, amended: if every descriptor fails probing, `resolve()` binds
and returns the first-listed Registry descriptor (AniList) as a
guaranteed fallback — never none — and when the subsequent fetch
request also fails, `search` and `recent` both return the empty
sequence without raising (totality of the embedding). -/
theorem C1_amended_allfail_fallback (s : BotState) (env : FetchEnv) (q : String)
    (hw : s.working_api = none)
    (hf : test_falcon_api env.probeEnv.falconResp = false)
    (ha : test_anilist_api env.probeEnv.anilistResp = false)
    (hj : test_jikan_api env.probeEnv.jikanResp = false)
    (hfail : env.fetchResp.failed = true) :
    (find_working_api s env.probeEnv).1 = anilistApi ∧
    (find_working_api s env.probeEnv).2.working_api = some anilistApi ∧
    (search_anime s env q).1 = .arr [] ∧
    (get_recent_anime s env).1 = .arr [] := by
  have hn : http_json env.fetchResp = none := Option.isNone_iff_eq_none.mp hfail
  have hfind : (find_working_api s env.probeEnv).1 = anilistApi := by
    unfold find_working_api
    rw [hw]
    simp [hf, ha, hj]
  refine ⟨hfind, ?_, search_failed s env q hn, recent_failed s env hn⟩
  rw [find_binds s env.probeEnv, hfind]

/-- C1 witness: the amended theorem applied to the initial state with
every upstream exchange raising. -/
theorem C1_amended_witness :
    (find_working_api initState allFailEnv).1 = anilistApi ∧
    (find_working_api initState allFailEnv).2.working_api = some anilistApi ∧
    (search_anime initState { probeEnv := allFailEnv, fetchResp := .netErr } "naruto").1 = .arr [] ∧
    (get_recent_anime initState { probeEnv := allFailEnv, fetchResp := .netErr }).1 = .arr [] :=
  C1_amended_allfail_fallback initState
    { probeEnv := allFailEnv, fetchResp := .netErr } "naruto" rfl rfl rfl rfl rfl

/-- C2, counterexample.  The claim says probing follows the Registry's
listed order, so of two healthy descriptors the earlier-listed wins.
In the Registry (`self.apis`) AniList is entry 0 and Falcon is entry 2,
yet with both healthy `find_working_api` binds Falcon: the trial order
is the hard-coded `apis[2], apis[0], apis[1]` of lines 169-173, not the
Registry order. -/
theorem C2_counterexample :
    test_anilist_api bothHealthyEnv.anilistResp = true ∧
    test_falcon_api bothHealthyEnv.falconResp = true ∧
    apis = [anilistApi, jikanApi, falconApi] ∧
    (find_working_api initState bothHealthyEnv).1 = falconApi ∧
    falconApi ≠ anilistApi :=
  ⟨rfl, rfl, rfl, rfl, by decide⟩

/-- C2, amended: from an unbound state, `resolve()` binds the first
descriptor that passes its canary test in the fixed preference order
Falcon, AniList, Jikan (`apis[2], apis[0], apis[1]`), falling back to
AniList when none passes; the Registry order itself is
AniList, Jikan, Falcon. -/
theorem C2_amended_preference_order (s : BotState) (env : ProbeEnv)
    (h : s.working_api = none) :
    (find_working_api s env).1 =
      (probe_preference.find? (probeHealthy env)).getD anilistApi ∧
    (find_working_api s env).2.working_api =
      some ((probe_preference.find? (probeHealthy env)).getD anilistApi) ∧
    probe_preference = [falconApi, anilistApi, jikanApi] ∧
    apis = [anilistApi, jikanApi, falconApi] := by
  have h1 : probeHealthy env falconApi = test_falcon_api env.falconResp := by
    simp [probeHealthy]
  have h2 : probeHealthy env anilistApi = test_anilist_api env.anilistResp := by
    have e : ¬ (anilistApi = falconApi) := by decide
    simp [probeHealthy, e]
  have h3 : probeHealthy env jikanApi = test_jikan_api env.jikanResp := by
    have e1 : ¬ (jikanApi = falconApi) := by decide
    have e2 : ¬ (jikanApi = anilistApi) := by decide
    simp [probeHealthy, e1, e2]
  have hmain : (find_working_api s env).1 =
      (probe_preference.find? (probeHealthy env)).getD anilistApi := by
    unfold find_working_api
    rw [h]
    by_cases hf : test_falcon_api env.falconResp
    · simp [probe_preference, List.find?, h1, h2, h3, hf]
    · by_cases ha : test_anilist_api env.anilistResp
      · simp [probe_preference, List.find?, h1, h2, h3, hf, ha]
      · by_cases hj : test_jikan_api env.jikanResp <;>
          simp [probe_preference, List.find?, h1, h2, h3, hf, ha, hj]
  refine ⟨hmain, ?_, rfl, rfl⟩
  rw [find_binds s env, hmain]

/-- C2 amended witness: with Falcon and AniList both healthy, the
first preference-order entry (Falcon) is bound. -/
theorem C2_amended_witness :
    (find_working_api initState bothHealthyEnv).1 =
      (probe_preference.find? (probeHealthy bothHealthyEnv)).getD anilistApi :=
  (C2_amended_preference_order initState bothHealthyEnv rfl).1

/-- C3: `resolve()` is idempotent and sticky.  From a bound state it
returns the bound descriptor immediately with the state unchanged
(hence no network call: `netCalls` unchanged); after any resolution
pass, a second pass under any probe environment returns the same
descriptor and the same state, issuing no request; and the fetch
operations never change the bound descriptor either. -/
theorem C3_resolve_idempotent_sticky (s : BotState) (env env2 : ProbeEnv)
    (fe : FetchEnv) (q : String) :
    (∀ api, s.working_api = some api → find_working_api s env = (api, s)) ∧
    find_working_api (find_working_api s env).2 env2 =
      ((find_working_api s env).1, (find_working_api s env).2) ∧
    (find_working_api (find_working_api s env).2 env2).2.netCalls =
      (find_working_api s env).2.netCalls ∧
    (search_anime (find_working_api s env).2 fe q).2.working_api =
      some (find_working_api s env).1 ∧
    (get_recent_anime (find_working_api s env).2 fe).2.working_api =
      some (find_working_api s env).1 := by
  have hb := find_binds s env
  refine ⟨fun api h => find_bound s env api h, ?_, ?_, ?_, ?_⟩
  · exact find_bound _ env2 _ hb
  · rw [find_bound _ env2 _ hb]
  · exact search_preserves_bound _ fe q _ hb
  · exact recent_preserves_bound _ fe _ hb

/-- C3 witness: the theorem applied to a concrete state already bound
to the Falcon descriptor. -/
theorem C3_witness :
    find_working_api { initState with working_api := some falconApi } allFailEnv =
      (falconApi, { initState with working_api := some falconApi }) :=
  (C3_resolve_idempotent_sticky { initState with working_api := some falconApi }
    allFailEnv allFailEnv { probeEnv := allFailEnv, fetchResp := .netErr } "q").1
    falconApi rfl

/-- C5: both fetch operations absorb every failure of their own
upstream exchange — network error, timeout, malformed JSON, non-200
status (`Upstream.failed`) — and return the empty sequence, in every
state; never raising is the totality of the embedded functions. -/
theorem C5_fetch_absorbs_failures (s : BotState) (env : FetchEnv) (q : String)
    (h : env.fetchResp.failed = true) :
    (search_anime s env q).1 = .arr [] ∧
    (get_recent_anime s env).1 = .arr [] := by
  have hn : http_json env.fetchResp = none := Option.isNone_iff_eq_none.mp h
  exact ⟨search_failed s env q hn, recent_failed s env hn⟩

/-- C5 witness: a bound Falcon backend whose search request delivers a
non-200 status; both operations return the empty sequence. -/
theorem C5_witness :
    (search_anime { initState with working_api := some falconApi }
      { probeEnv := allFailEnv, fetchResp := .resp 500 none } "naruto").1 = .arr [] ∧
    (get_recent_anime { initState with working_api := some falconApi }
      { probeEnv := allFailEnv, fetchResp := .resp 500 none }).1 = .arr [] :=
  C5_fetch_absorbs_failures { initState with working_api := some falconApi }
    { probeEnv := allFailEnv, fetchResp := .resp 500 none } "naruto" rfl

/-- C9: shutdown is idempotent — running `shutdown_bot` twice yields
exactly the state of running it once, the second run closes nothing
(`closes` unchanged: no double close), from an open session one
shutdown closes it exactly once, and after a shutdown the session is
never left open. -/
theorem C9_shutdown_idempotent (s : BotState) :
    shutdown_bot (shutdown_bot s) = shutdown_bot s ∧
    (shutdown_bot (shutdown_bot s)).closes = (shutdown_bot s).closes ∧
    (s.session = .opened →
      (shutdown_bot s).session = .closed ∧
      (shutdown_bot s).closes = s.closes + 1) ∧
    (shutdown_bot s).session ≠ .opened := by
  obtain ⟨sess, wa, op, cl, nc, fl, ir⟩ := s
  cases sess <;> simp [shutdown_bot, close_session]

/-- C9 witness: the theorem applied to a running state with an open
session. -/
theorem C9_witness :
    (shutdown_bot { initState with session := .opened, is_running := true }).session = .closed ∧
    (shutdown_bot { initState with session := .opened, is_running := true }).closes =
      ({ initState with session := .opened, is_running := true } : BotState).closes + 1 :=
  (C9_shutdown_idempotent { initState with session := .opened, is_running := true }).2.2.1 rfl

/-- C4, counterexample.  The claim says a probe succeeds iff the status
indicates success and results are present.  The code compares the
status with 200 exactly (`if response.status == 200`), so a 201
response — a success status under `specSuccessStatus` — carrying a
non-empty result list still probes false. -/
theorem C4_counterexample :
    specSuccessStatus 201 = true ∧
    falconOkBody.get? "animes" =
      some (.arr [.obj [("id", .str "one-piece-100"), ("name", .str "One Piece")]]) ∧
    test_falcon_api (.resp 201 (some falconOkBody)) = false :=
  ⟨rfl, rfl, rfl⟩

/-- C4, amended: each of the three probes resolves to a boolean
(totality) and returns true iff the exchange delivered status exactly
200, the body parsed, and the result-bearing key of that backend's
shape (`animes` for Falcon, `data.Media` for AniList, `data` for
Jikan) holds a truthy (non-empty) value; every network error or
timeout, every non-200 status and every malformed body yields false. -/
theorem C4_amended_probe_boolean :
    (∀ u, test_falcon_api u = true ↔
      ∃ d v, u = .resp 200 (some d) ∧ d.get? "animes" = some v ∧ truthy v = true) ∧
    (∀ u, test_anilist_api u = true ↔
      ∃ d v, u = .resp 200 (some d) ∧
        ((d.get? "data").getD (.obj [])).get? "Media" = some v ∧ truthy v = true) ∧
    (∀ u, test_jikan_api u = true ↔
      ∃ d v, u = .resp 200 (some d) ∧ d.get? "data" = some v ∧ truthy v = true) ∧
    (∀ st b, st ≠ 200 →
      test_falcon_api (.resp st b) = false ∧ test_anilist_api (.resp st b) = false ∧
      test_jikan_api (.resp st b) = false) ∧
    (test_falcon_api .netErr = false ∧ test_anilist_api .netErr = false ∧
      test_jikan_api .netErr = false) ∧
    (test_falcon_api (.resp 200 none) = false ∧ test_anilist_api (.resp 200 none) = false ∧
      test_jikan_api (.resp 200 none) = false) := by
  refine ⟨?_, ?_, ?_, ?_, ⟨rfl, rfl, rfl⟩, ⟨rfl, rfl, rfl⟩⟩
  · intro u
    cases u with
    | netErr => simp [test_falcon_api, http_json]
    | resp st body =>
      by_cases hst : st = 200
      · subst hst
        cases body with
        | none => simp [test_falcon_api, http_json]
        | some d =>
          simp only [test_falcon_api, http_json, if_pos rfl]
          cases hg : d.get? "animes" with
          | none => simp [hg, truthy]
          | some v => simp [hg]
      · simp [test_falcon_api, http_json, hst]
  · intro u
    cases u with
    | netErr => simp [test_anilist_api, http_json]
    | resp st body =>
      by_cases hst : st = 200
      · subst hst
        cases body with
        | none => simp [test_anilist_api, http_json]
        | some d =>
          simp only [test_anilist_api, http_json, if_pos rfl]
          cases hg : ((d.get? "data").getD (.obj [])).get? "Media" with
          | none => simp [hg, truthy]
          | some v => simp [hg]
      · simp [test_anilist_api, http_json, hst]
  · intro u
    cases u with
    | netErr => simp [test_jikan_api, http_json]
    | resp st body =>
      by_cases hst : st = 200
      · subst hst
        cases body with
        | none => simp [test_jikan_api, http_json]
        | some d =>
          simp only [test_jikan_api, http_json, if_pos rfl]
          cases hg : d.get? "data" with
          | none => simp [hg, truthy]
          | some v => simp [hg]
      · simp [test_jikan_api, http_json, hst]
  · intro st b hst
    exact ⟨by simp [test_falcon_api, http_json, hst],
           by simp [test_anilist_api, http_json, hst],
           by simp [test_jikan_api, http_json, hst]⟩

/-- C4 witness: the amended theorem applied to a 404 exchange (false
for Falcon and Jikan), to a healthy Falcon exchange (true), and to a
healthy Jikan exchange (true). -/
theorem C4_amended_witness :
    test_falcon_api (.resp 404 (some falconOkBody)) = false ∧
    test_jikan_api (.resp 404 (some falconOkBody)) = false ∧
    test_falcon_api falconOk = true ∧
    test_jikan_api (.resp 200 (some (.obj [("data", .obj [("mal_id", .num 1)])]))) = true := by
  refine ⟨?_, ?_, ?_, ?_⟩
  · exact (C4_amended_probe_boolean.2.2.2.1 404 (some falconOkBody) (by decide)).1
  · exact (C4_amended_probe_boolean.2.2.2.1 404 (some falconOkBody) (by decide)).2.2
  · exact (C4_amended_probe_boolean.1 falconOk).mpr
      ⟨falconOkBody,
       .arr [.obj [("id", .str "one-piece-100"), ("name", .str "One Piece")]],
       rfl, rfl, rfl⟩
  · exact (C4_amended_probe_boolean.2.2.1
      (.resp 200 (some (.obj [("data", .obj [("mal_id", .num 1)])])))).mpr
      ⟨.obj [("data", .obj [("mal_id", .num 1)])], .obj [("mal_id", .num 1)],
       rfl, rfl, rfl⟩

/-! ### C6 / C7: normalization of the result loop -/

/-- A well-shaped iteration that appends its button yields exactly the
`(title, id)` pair of the approved extraction functions; a run of such
iterations collects their entries in order. -/
lemma keyboard_go_all (apiName : String) (l : List Json)
    (h : ∀ x ∈ l, search_step apiName x =
      some (some (search_title apiName x, search_anime_id apiName x))) :
    search_command_keyboard_go apiName l =
      some (l.map fun a => (search_title apiName a, search_anime_id apiName a)) := by
  induction l with
  | nil => rfl
  | cons a t ih =>
    have ha := h a (List.mem_cons_self a t)
    have ht := ih fun x hx => h x (List.mem_cons_of_mem a hx)
    simp [search_command_keyboard_go, ha, ht, Option.toList]

lemma keyboard_go_split (apiName : String) (xs ys : List Json) (z : Json)
    (hx : ∀ x ∈ xs, search_step apiName x =
      some (some (search_title apiName x, search_anime_id apiName x)))
    (hz : search_step apiName z = some none)
    (hy : ∀ y ∈ ys, search_step apiName y =
      some (some (search_title apiName y, search_anime_id apiName y))) :
    search_command_keyboard_go apiName (xs ++ z :: ys) =
      some ((xs.map fun a => (search_title apiName a, search_anime_id apiName a)) ++
        ys.map fun a => (search_title apiName a, search_anime_id apiName a)) := by
  induction xs with
  | nil =>
    simp [search_command_keyboard_go, hz, keyboard_go_all apiName ys hy, Option.toList]
  | cons a t ih =>
    have ha := hx a (List.mem_cons_self a t)
    have ht := ih fun x hxm => hx x (List.mem_cons_of_mem a hxm)
    simp [search_command_keyboard_go, ha, ht, Option.toList]

/-- A Falcon search record carrying an identifier. -/
def falconRec (i : String) : Json := .obj [("id", .str i), ("name", .str "T")]

/-- Seven records, all with identifiers. -/
def c6list : List Json :=
  [falconRec "a1", falconRec "a2", falconRec "a3", falconRec "a4",
   falconRec "a5", falconRec "a6", falconRec "a7"]

/-- A record with no identifier key at all. -/
def noIdRec : Json := .obj [("name", .str "NoId")]

/-- C6, counterexample.  The claim says every record with its required
identifier is kept.  The loop runs over `results[:6]` (line 480), so a
raw list of seven well-shaped records, each carrying an identifier,
yields a delivered keyboard of only six entries: the seventh is
dropped although nothing is missing from it. -/
theorem C6_counterexample :
    c6list.length = 7 ∧
    (∀ r ∈ c6list, truthy (search_anime_id "Falcon71181 Anime API" r) = true) ∧
    (search_command_keyboard "Falcon71181 Anime API" c6list).map List.length =
      some 6 := by
  refine ⟨rfl, ?_, rfl⟩
  decide

/-- C6, amended: within the first six records the loop renders, and
provided every processed record completes its iteration without
raising (an ill-shaped record makes the whole command abort through
the `except` at line 540, delivering no keyboard at all), a record
whose extracted identifier is missing/falsy is dropped from the
selectable output while every other rendered record is kept,
preserving relative order. -/
theorem C6_amended_drop_within_first_six (apiName : String) (xs ys : List Json)
    (z : Json)
    (hx : ∀ x ∈ xs, search_step apiName x =
      some (some (search_title apiName x, search_anime_id apiName x)))
    (hz : search_step apiName z = some none)
    (hy : ∀ y ∈ ys, search_step apiName y =
      some (some (search_title apiName y, search_anime_id apiName y)))
    (hlen : xs.length + ys.length + 1 ≤ 6) :
    search_command_keyboard apiName (xs ++ z :: ys) =
      some ((xs.map fun a => (search_title apiName a, search_anime_id apiName a)) ++
        ys.map fun a => (search_title apiName a, search_anime_id apiName a)) := by
  unfold search_command_keyboard
  have hl : (xs ++ z :: ys).length ≤ 6 := by
    rw [List.length_append, List.length_cons]
    omega
  rw [List.take_of_length_le hl]
  exact keyboard_go_split apiName xs ys z hx hz hy

/-- C6 witness: the amended theorem applied to a three-record list
whose middle record has no identifier. -/
theorem C6_amended_witness :
    search_command_keyboard "Falcon71181 Anime API"
        ([falconRec "a1"] ++ noIdRec :: [falconRec "a2"]) =
      some (([falconRec "a1"].map fun a =>
        (search_title "Falcon71181 Anime API" a,
         search_anime_id "Falcon71181 Anime API" a)) ++
      [falconRec "a2"].map fun a =>
        (search_title "Falcon71181 Anime API" a,
         search_anime_id "Falcon71181 Anime API" a)) :=
  C6_amended_drop_within_first_six "Falcon71181 Anime API"
    [falconRec "a1"] [falconRec "a2"] noIdRec
    (by intro x hx; rw [List.mem_singleton] at hx; subst hx; rfl)
    rfl
    (by intro y hy; rw [List.mem_singleton] at hy; subst hy; rfl)
    (by decide)

/-- An AniList record whose title has both alias keys, the
higher-priority one (`romaji`) holding the empty string. -/
def c7rec : Json :=
  .obj [("title", .obj [("romaji", .str ""), ("english", .str "Cowboy Bebop")])]

/-- C7, counterexample.  The claim says that with both alias keys
present, normalization selects the value of the higher-priority alias
(`romaji`).  Python `or` selects the first TRUTHY alias: with `romaji`
present but empty, the code selects the `english` value instead of the
romaji value. -/
theorem C7_counterexample :
    ((c7rec.get? "title").getD (.obj [])).get? "romaji" = some (.str "") ∧
    ((c7rec.get? "title").getD (.obj [])).get? "english" = some (.str "Cowboy Bebop") ∧
    anilist_title c7rec = .str "Cowboy Bebop" ∧
    anilist_title c7rec ≠ .str "" := by
  refine ⟨rfl, rfl, rfl, ?_⟩
  show Json.str "Cowboy Bebop" ≠ Json.str ""
  simp

/-- C7, amended: normalization selects the highest-priority alias whose
value is truthy; in particular, whenever the `romaji` alias holds a
truthy (non-empty) value it wins deterministically, in both the search
and the recent rendering paths. -/
theorem C7_amended_alias_precedence (anime t v : Json)
    (ht : anime.get? "title" = some t)
    (hr : t.get? "romaji" = some v)
    (hv : truthy v = true) :
    anilist_title anime = v ∧
    search_title "AniList GraphQL" anime = v ∧
    recent_title "AniList GraphQL" anime = v := by
  have h1 : anilist_title anime = v := by
    unfold anilist_title
    rw [ht]
    simp only [Option.getD_some]
    rw [hr]
    simp only [Option.getD_some]
    unfold pyOr
    rw [if_pos hv, if_pos hv]
  refine ⟨h1, ?_, ?_⟩
  · unfold search_title
    rw [if_pos rfl]
    exact h1
  · unfold recent_title
    rw [if_pos rfl]
    exact h1

/-- C7 witness: the amended theorem applied to a record with both
aliases non-empty — the romaji value is selected. -/
theorem C7_amended_witness :
    anilist_title (.obj [("title", .obj [("romaji", .str "Naruto"), ("english", .str "Naruto EN")])]) =
      .str "Naruto" :=
  (C7_amended_alias_precedence
    (.obj [("title", .obj [("romaji", .str "Naruto"), ("english", .str "Naruto EN")])])
    (.obj [("romaji", .str "Naruto"), ("english", .str "Naruto EN")])
    (.str "Naruto") rfl rfl (by decide)).1

/-! ### C8 / C10: session lifecycle and recent-list size -/

/-- The reachable values of `working_api`: `None` or a Registry
entry — `find_working_api` binds nothing else. -/
def wfBound (s : BotState) : Prop :=
  s.working_api = none ∨ s.working_api = some anilistApi ∨
  s.working_api = some jikanApi ∨ s.working_api = some falconApi

lemma search_state_session (s : BotState) (env : FetchEnv) (q : String)
    (hw : wfBound s) :
    (search_anime s env q).2.session = .opened ∧
    (search_anime s env q).2.opens =
      (if s.session = .opened then s.opens else s.opens + 1) := by
  have hop : (requestThrough s).opens =
      (if s.session = .opened then s.opens else s.opens + 1) := by
    by_cases hs : s.session = .opened
    · simp [hs, requestThrough_opens_of_opened hs]
    · simp [hs, requestThrough_opens_of_not_opened hs]
  rcases hw with hw | hw | hw | hw
  · obtain ⟨hs1, ho1⟩ := find_unbound_state s env.probeEnv hw
    unfold search_anime
    dsimp only
    split
    · rw [search_anilist_state]
      exact ⟨requestThrough_session _, by rw [requestThrough_opens_of_opened hs1, ho1]⟩
    · split
      · rw [search_jikan_state]
        exact ⟨requestThrough_session _, by rw [requestThrough_opens_of_opened hs1, ho1]⟩
      · split
        · rw [search_falcon_state]
          exact ⟨requestThrough_session _, by rw [requestThrough_opens_of_opened hs1, ho1]⟩
        · exact ⟨hs1, ho1⟩
  · unfold search_anime
    rw [find_bound s env.probeEnv _ hw]
    dsimp only
    rw [if_pos (show anilistApi.name = "AniList GraphQL" from rfl), search_anilist_state]
    exact ⟨requestThrough_session _, hop⟩
  · unfold search_anime
    rw [find_bound s env.probeEnv _ hw]
    dsimp only
    rw [if_neg (by decide), if_pos (show jikanApi.name = "Jikan MyAnimeList API" from rfl),
      search_jikan_state]
    exact ⟨requestThrough_session _, hop⟩
  · unfold search_anime
    rw [find_bound s env.probeEnv _ hw]
    dsimp only
    rw [if_neg (by decide), if_neg (by decide),
      if_pos (show falconApi.name = "Falcon71181 Anime API" from rfl), search_falcon_state]
    exact ⟨requestThrough_session _, hop⟩

lemma recent_state_session (s : BotState) (env : FetchEnv)
    (hw : wfBound s) :
    (get_recent_anime s env).2.session = .opened ∧
    (get_recent_anime s env).2.opens =
      (if s.session = .opened then s.opens else s.opens + 1) := by
  have hinit : (init_session s).opens =
      (if s.session = .opened then s.opens else s.opens + 1) := by
    by_cases hs : s.session = .opened
    · simp [hs, init_session_of_opened hs]
    · simp [hs, init_session_opens_of_not_opened hs]
  rcases hw with hw | hw | hw | hw
  · obtain ⟨hs1, ho1⟩ := find_unbound_state s env.probeEnv hw
    have he : init_session (find_working_api s env.probeEnv).2 =
        (find_working_api s env.probeEnv).2 := init_session_of_opened hs1
    unfold get_recent_anime
    dsimp only
    rw [he]
    split
    · rw [recent_anilist_state]; exact ⟨hs1, ho1⟩
    · split
      · rw [recent_jikan_state]; exact ⟨hs1, ho1⟩
      · split
        · rw [recent_falcon_state]; exact ⟨hs1, ho1⟩
        · exact ⟨hs1, ho1⟩
  · unfold get_recent_anime
    rw [find_bound s env.probeEnv _ hw]
    dsimp only
    rw [if_pos (show anilistApi.name = "AniList GraphQL" from rfl), recent_anilist_state]
    exact ⟨init_session_session s, hinit⟩
  · unfold get_recent_anime
    rw [find_bound s env.probeEnv _ hw]
    dsimp only
    rw [if_neg (by decide), if_pos (show jikanApi.name = "Jikan MyAnimeList API" from rfl),
      recent_jikan_state]
    exact ⟨init_session_session s, hinit⟩
  · unfold get_recent_anime
    rw [find_bound s env.probeEnv _ hw]
    dsimp only
    rw [if_neg (by decide), if_neg (by decide),
      if_pos (show falconApi.name = "Falcon71181 Anime API" from rfl), recent_falcon_state]
    exact ⟨init_session_session s, hinit⟩

/-- A post-shutdown state: session closed, Falcon still bound. -/
def c8state : BotState :=
  { session := .closed, working_api := some falconApi, opens := 1, closes := 1,
    netCalls := 4, shutdown_flag := true, is_running := false }

/-- A fetch environment whose search request succeeds with one
result. -/
def c8env : FetchEnv := { probeEnv := allFailEnv, fetchResp := falconOk }

/-- C8, counterexample.  The claim says that after the session is
Closed any further fetch call returns an empty result and the session
is never re-opened.  In the code, `init_session` (lines 80-92)
constructs a fresh client whenever `self.session` is `None` OR closed,
so a search from a closed-session state re-opens the session (a new
client: `opens` grows) and returns its results normally — non-empty
here. -/
theorem C8_counterexample :
    c8state.session = .closed ∧
    (search_anime c8state c8env "naruto").1 =
      .arr [.obj [("id", .str "one-piece-100"), ("name", .str "One Piece")]] ∧
    (search_anime c8state c8env "naruto").1 ≠ .arr [] ∧
    (search_anime c8state c8env "naruto").2.session = .opened ∧
    (search_anime c8state c8env "naruto").2.opens = c8state.opens + 1 := by
  refine ⟨rfl, rfl, ?_, rfl, rfl⟩
  show Json.arr [.obj [("id", .str "one-piece-100"), ("name", .str "One Piece")]] ≠ .arr []
  simp

/-- C8, amended: Closed is not terminal.  From any closed-session state
(with a reachable binding), a further fetch operation re-initializes
the session — it constructs a fresh client (`opens` grows by one; the
closed client itself is never reused) and leaves the session Open
again, proceeding with the request normally. -/
theorem C8_amended_reopen (s : BotState) (env : FetchEnv) (q : String)
    (hs : s.session = .closed) (hw : wfBound s) :
    ((search_anime s env q).2.session = .opened ∧
     (search_anime s env q).2.opens = s.opens + 1) ∧
    ((get_recent_anime s env).2.session = .opened ∧
     (get_recent_anime s env).2.opens = s.opens + 1) := by
  have h1 := search_state_session s env q hw
  have h2 := recent_state_session s env hw
  rw [hs] at h1 h2
  simpa using ⟨h1, h2⟩

/-- C8 witness: the amended theorem applied to the concrete
post-shutdown state. -/
theorem C8_amended_witness :
    ((search_anime c8state c8env "naruto").2.session = .opened ∧
     (search_anime c8state c8env "naruto").2.opens = c8state.opens + 1) ∧
    ((get_recent_anime c8state c8env).2.session = .opened ∧
     (get_recent_anime c8state c8env).2.opens = c8state.opens + 1) :=
  C8_amended_reopen c8state c8env "naruto" rfl (Or.inr (Or.inr (Or.inr rfl)))

/-- A raw result record with only an identifier (fields beyond the
identifier are irrelevant to the size claim). -/
def mediaRec (i : Int) : Json := .obj [("id", .num i)]

/-- Nine raw records, one more than the claimed bound. -/
def nineMedia : List Json :=
  [mediaRec 1, mediaRec 2, mediaRec 3, mediaRec 4, mediaRec 5,
   mediaRec 6, mediaRec 7, mediaRec 8, mediaRec 9]

/-- An AniList trending response carrying nine media records. -/
def c10body : Json :=
  .obj [("data", .obj [("Page", .obj [("media", .arr nineMedia)])])]

/-- A state bound to AniList. -/
def c10state : BotState := { initState with working_api := some anilistApi }

/-- The environment delivering the nine-record AniList response. -/
def c10env : FetchEnv :=
  { probeEnv := allFailEnv, fetchResp := .resp 200 (some c10body) }

/-- C10, counterexample.  The claim says recent returns at most 8
records for every bound backend and every upstream response.  The
AniList (and Jikan) recent branches return the response list as-is —
`perPage: 8` / `limit=8` are only request parameters — so an AniList
response carrying nine records yields nine records. -/
theorem C10_counterexample :
    c10state.working_api = some anilistApi ∧
    (get_recent_anime c10state c10env).1 = .arr nineMedia ∧
    nineMedia.length = 9 :=
  ⟨rfl, rfl, rfl⟩

/-- C10, amended: only the Falcon branch truncates — with Falcon bound,
any list the recent operation returns has at most 8 elements
(`[:8]`, line 338); with AniList or Jikan bound, the recent operation
returns the response's result list unmodified (`perPage: 8` and
`limit=8` are request parameters only), so the 8-bound there holds
only if the upstream honors the requested page size. -/
theorem C10_amended_truncation (s : BotState) (env : FetchEnv) :
    (s.working_api = some falconApi →
      ∀ xs, (get_recent_anime s env).1 = .arr xs → xs.length ≤ 8) ∧
    (∀ data, s.working_api = some anilistApi →
      env.fetchResp = .resp 200 (some data) →
      (get_recent_anime s env).1 = anilist_media data) ∧
    (∀ data, s.working_api = some jikanApi →
      env.fetchResp = .resp 200 (some data) →
      (get_recent_anime s env).1 = (data.get? "data").getD (.arr [])) := by
  refine ⟨?_, ?_, ?_⟩
  · intro hw xs hx
    unfold get_recent_anime at hx
    rw [find_bound s env.probeEnv _ hw] at hx
    dsimp only at hx
    rw [if_neg (by decide), if_neg (by decide),
      if_pos (show falconApi.name = "Falcon71181 Anime API" from rfl)] at hx
    unfold recent_falcon at hx
    cases h : http_json env.fetchResp with
    | none =>
      rw [h] at hx
      have he : ([] : List Json) = xs := by simpa using hx
      simp [← he]
    | some data =>
      rw [h] at hx
      dsimp only at hx
      cases hv : (data.get? "animes").getD (.arr []) with
      | arr ys =>
        rw [hv] at hx
        simp only [pySlice8] at hx
        have : ys.take 8 = xs := by simpa using hx
        rw [← this, List.length_take]
        exact min_le_left _ _
      | str s1 =>
        rw [hv] at hx
        simp [pySlice8] at hx
      | null =>
        rw [hv] at hx
        simp only [pySlice8] at hx
        simp [← (by simpa using hx : ([] : List Json) = xs)]
      | bool b =>
        rw [hv] at hx
        simp only [pySlice8] at hx
        simp [← (by simpa using hx : ([] : List Json) = xs)]
      | num n =>
        rw [hv] at hx
        simp only [pySlice8] at hx
        simp [← (by simpa using hx : ([] : List Json) = xs)]
      | obj fs =>
        rw [hv] at hx
        simp only [pySlice8] at hx
        simp [← (by simpa using hx : ([] : List Json) = xs)]
  · intro data hw hresp
    unfold get_recent_anime
    rw [find_bound s env.probeEnv _ hw]
    dsimp only
    rw [if_pos (show anilistApi.name = "AniList GraphQL" from rfl)]
    unfold recent_anilist
    rw [hresp]
    simp [http_json]
  · intro data hw hresp
    unfold get_recent_anime
    rw [find_bound s env.probeEnv _ hw]
    dsimp only
    rw [if_neg (by decide), if_pos (show jikanApi.name = "Jikan MyAnimeList API" from rfl)]
    unfold recent_jikan
    rw [hresp]
    simp [http_json]

/-- A state bound to Falcon, for the witness. -/
def c10fstate : BotState := { initState with working_api := some falconApi }

/-- A Falcon recent response carrying nine records. -/
def c10fenv : FetchEnv :=
  { probeEnv := allFailEnv,
    fetchResp := .resp 200 (some (.obj [("animes", .arr nineMedia)])) }

/-- A state bound to Jikan, for the witness. -/
def c10jstate : BotState := { initState with working_api := some jikanApi }

/-- A Jikan seasons-now response carrying nine records. -/
def c10jbody : Json := .obj [("data", .arr nineMedia)]

/-- The environment delivering the nine-record Jikan response. -/
def c10jenv : FetchEnv :=
  { probeEnv := allFailEnv, fetchResp := .resp 200 (some c10jbody) }

/-- C10 witness: the amended theorem applied to a Falcon recent
response with nine records (truncated to eight), to the nine-record
AniList response (returned as-is), and to the nine-record Jikan
response (returned as-is). -/
theorem C10_amended_witness :
    (nineMedia.take 8).length ≤ 8 ∧
    (get_recent_anime c10state c10env).1 = anilist_media c10body ∧
    (get_recent_anime c10jstate c10jenv).1 = (c10jbody.get? "data").getD (.arr []) :=
  ⟨(C10_amended_truncation c10fstate c10fenv).1 rfl (nineMedia.take 8) rfl,
   (C10_amended_truncation c10state c10env).2.1 c10body rfl rfl,
   (C10_amended_truncation c10jstate c10jenv).2.2 c10jbody rfl rfl⟩

end AnimeBot
